import Mathlib

/-!
Verification of the AVR_sleep library (NormanDunbar/AVR_sleep).

The library is a thin sleep controller for 8-bit AVR microcontrollers:
`setSleepMode` stores a power-off mask and commits a (possibly substituted)
sleep mode, `goToSleep` sequences register writes, interrupt masking and
hook calls around the sleep instruction, and `attachPreSleep` /
`attachWakeUp` register caller hooks.

The embedding models the hardware registers touched by the code as natural
numbers (8-bit registers, masked at each write), the controller object as a
structure, and `goToSleep` as the list of observable events it performs, in
source order, together with a semantics applying each event to the register
state.  Bit positions (PRR bits, ACD, WDRF) are those of the ATmega328P
target, as documented in the comments of AVR_sleep.h.
-/

namespace AVRsleep

/-- Bit PRADC of the PRR register (avr/io.h, PRR bit 0 per AVR_sleep.h). -/
def PRADC : Nat := 0

/-- Bit PRUSART0 of the PRR register (PRR bit 1). -/
def PRUSART0 : Nat := 1

/-- Bit PRSPI of the PRR register (PRR bit 2). -/
def PRSPI : Nat := 2

/-- Bit PRTIM1 of the PRR register (PRR bit 3). -/
def PRTIM1 : Nat := 3

/-- Bit PRTIM0 of the PRR register (PRR bit 5). -/
def PRTIM0 : Nat := 5

/-- Bit PRTIM2 of the PRR register (PRR bit 6). -/
def PRTIM2 : Nat := 6

/-- Bit PRTWI of the PRR register (PRR bit 7). -/
def PRTWI : Nat := 7

/-- Bit ACD (analog comparator disable) of the ACSR register. -/
def ACD : Nat := 7

/-- Bit WDRF (watchdog reset flag) of the MCUSR register. -/
def WDRF : Nat := 3

/-- powerMode enumerator PM_NONE (AVR_sleep.h line 85). -/
def PM_NONE : Nat := 0

/-- powerMode enumerator PM_TWI_OFF = 1 << PRTWI (AVR_sleep.h line 86). -/
def PM_TWI_OFF : Nat := 1 <<< PRTWI

/-- powerMode enumerator PM_TIMER2_OFF = 1 << PRTIM2 (AVR_sleep.h line 87). -/
def PM_TIMER2_OFF : Nat := 1 <<< PRTIM2

/-- powerMode enumerator PM_TIMER0_OFF = 1 << PRTIM0 (AVR_sleep.h line 88). -/
def PM_TIMER0_OFF : Nat := 1 <<< PRTIM0

/-- powerMode enumerator PM_TIMER1_OFF = 1 << PRTIM1 (AVR_sleep.h line 89). -/
def PM_TIMER1_OFF : Nat := 1 <<< PRTIM1

/-- powerMode enumerator PM_SPI_OFF = 1 << PRSPI (AVR_sleep.h line 90). -/
def PM_SPI_OFF : Nat := 1 <<< PRSPI

/-- powerMode enumerator PM_USART_OFF = 1 << PRUSART0 (AVR_sleep.h line 91). -/
def PM_USART_OFF : Nat := 1 <<< PRUSART0

/-- powerMode enumerator PM_ADC_OFF = 1 << PRADC (AVR_sleep.h line 92). -/
def PM_ADC_OFF : Nat := 1 <<< PRADC

/-- powerMode enumerator PM_PRR_OFF = 0b11101111 (AVR_sleep.h line 93). -/
def PM_PRR_OFF : Nat := 0b11101111

/-- powerMode enumerator PM_AC_OFF = 8 (AVR_sleep.h line 97): a bit index,
not a mask. -/
def PM_AC_OFF : Nat := 8

/-- powerMode enumerator PM_BOD_OFF = 9 (AVR_sleep.h line 98): a bit index,
not a mask. -/
def PM_BOD_OFF : Nat := 9

/-- powerMode enumerator PM_WDT_OFF = 10 (AVR_sleep.h line 99): a bit index,
not a mask. -/
def PM_WDT_OFF : Nat := 10

/-- powerMode enumerator PM_EVERYTHING_OFF = 0x07ef (AVR_sleep.h line 100). -/
def PM_EVERYTHING_OFF : Nat := 0x07ef

/-- The sleepMode enumeration of AVR_sleep.h lines 66-73.  The underlying
numeric values come from avr/sleep.h and are pairwise distinct on the
target; only the identity of the mode matters to the library. -/
inductive sleepMode where
  | SM_IDLE
  | SM_ADC
  | SM_POWER_DOWN
  | SM_POWER_SAVE
  | SM_STANDBY
  | SM_EXT_STANDBY
deriving DecidableEq, Repr

/-- The hardware registers the library touches.  Registers are 8-bit; every
write masks with 256.  `smcrMode` is the sleep-mode-select field of SMCR
(written by set_sleep_mode) and `SE` its sleep-enable bit. -/
structure MachineState where
  PRR : Nat
  ACSR : Nat
  MCUSR : Nat
  SREG : Nat
  smcrMode : sleepMode
  SE : Bool
deriving DecidableEq, Repr

/-- The AVR_sleep controller object: the two hook pointers (0 models the
null pointer), the saved PRR copy and the stored power-off bits
(AVR_sleep.h lines 132-152). -/
structure AVR_sleep where
  ps : Nat
  aw : Nat
  copyPRR : Nat
  powerBits : Nat
deriving DecidableEq, Repr

/-- The constructor AVR_sleep::AVR_sleep (AVR_sleep.cpp lines 8-13): nulls
the hook pointers, zeroes copyPRR, powerBits = PM_NONE. -/
def AVR_sleep.init : AVR_sleep :=
  { ps := 0, aw := 0, copyPRR := 0, powerBits := PM_NONE }

/-- AVR_sleep::setSleepMode (AVR_sleep.cpp lines 20-51).  The `arduino`
flag models the `#ifdef ARDUINO` conditional compilation: when true, the
mode substitution of lines 31-45 is compiled in.  Stores the power-off
bits, then commits the (possibly substituted) mode via set_sleep_mode,
which writes the sleep-mode-select field of SMCR. -/
def setSleepMode (arduino : Bool) (c : AVR_sleep) (m : MachineState)
    (requestedMode : sleepMode) (powerOffBits : Nat) :
    AVR_sleep × MachineState :=
  let c' := { c with powerBits := powerOffBits }
  let mode :=
    if arduino then
      if requestedMode = sleepMode.SM_POWER_SAVE then
        sleepMode.SM_POWER_DOWN
      else
        if requestedMode = sleepMode.SM_EXT_STANDBY then
          sleepMode.SM_STANDBY
        else
          requestedMode
    else
      requestedMode
  (c', { m with smcrMode := mode })

/-- AVR_sleep::attachPreSleep (AVR_sleep.cpp lines 186-188): ps = psfn. -/
def attachPreSleep (c : AVR_sleep) (psfn : Nat) : AVR_sleep :=
  { c with ps := psfn }

/-- AVR_sleep::attachWakeUp (AVR_sleep.cpp lines 193-195): aw = awfn. -/
def attachWakeUp (c : AVR_sleep) (awfn : Nat) : AVR_sleep :=
  { c with aw := awfn }

/-- The observable events performed by AVR_sleep::goToSleep, in program
order: hardware register writes, the wdt_reset and wdt_disable sequences,
interrupt masking (cli/sei write the I bit of SREG), sleep-enable /
sleep-disable (the SE bit of SMCR), the sleep instruction, and the two
hook invocations. -/
inductive Event where
  | writePRR (v : Nat)
  | writeACSR (v : Nat)
  | wdtReset
  | writeMCUSR (v : Nat)
  | wdtDisable
  | callPreSleep (fn : Nat)
  | cli
  | sleepEnable
  | bodDisable
  | sei
  | sleepCpu
  | sleepDisable
  | writeSREG (v : Nat)
  | callAfterWake (fn : Nat)
deriving DecidableEq, Repr

/-- The effect of each event on the register state.  Register writes mask
to 8 bits; cli clears and sei sets the I bit (bit 7) of SREG; the events
with no modelled register effect (wdt_reset, wdt_disable, bod-disable,
the sleep instruction, hook calls) leave the modelled registers
unchanged. -/
def applyEvent (m : MachineState) : Event → MachineState
  | Event.writePRR v => { m with PRR := v % 256 }
  | Event.writeACSR v => { m with ACSR := v % 256 }
  | Event.wdtReset => m
  | Event.writeMCUSR v => { m with MCUSR := v % 256 }
  | Event.wdtDisable => m
  | Event.callPreSleep _ => m
  | Event.cli => { m with SREG := m.SREG &&& 0x7f }
  | Event.sleepEnable => { m with SE := true }
  | Event.bodDisable => m
  | Event.sei => { m with SREG := m.SREG ||| 0x80 }
  | Event.sleepCpu => m
  | Event.sleepDisable => { m with SE := false }
  | Event.writeSREG v => { m with SREG := v % 256 }
  | Event.callAfterWake _ => m

/-- The events of AVR_sleep::goToSleep up to and including the restore of
PRR and SREG (AVR_sleep.cpp lines 69-173), i.e. everything before the
afterWake hook step.  Every value written is determined by the entry
state: copyPRR is snapshotted from PRR at line 69 and written back at
line 172; oldSREG is read at line 110 (no earlier event writes SREG) and
written back at line 173. -/
def preHookTrace (c : AVR_sleep) (m : MachineState) : List Event :=
  -- line 72: PRR = (powerBits & 0x00ff);
  [Event.writePRR (c.powerBits &&& 0x00ff)]
  -- lines 83-85: if (powerBits & (1 << PM_AC_OFF)) ACSR |= (1 << ACD);
  ++ (if c.powerBits &&& (1 <<< PM_AC_OFF) ≠ 0 then
        [Event.writeACSR (m.ACSR ||| (1 <<< ACD))]
      else [])
  -- lines 94-98: if (powerBits & (1 << PM_WDT_OFF)) wdt_reset();
  --   MCUSR &= (1 << WDRF); wdt_disable();
  ++ (if c.powerBits &&& (1 <<< PM_WDT_OFF) ≠ 0 then
        [Event.wdtReset,
         Event.writeMCUSR (m.MCUSR &&& (1 <<< WDRF)),
         Event.wdtDisable]
      else [])
  -- lines 103-105: if (ps) (ps)();
  ++ (if c.ps ≠ 0 then [Event.callPreSleep c.ps] else [])
  -- line 111: cli();  line 116: sleep_enable();
  ++ [Event.cli, Event.sleepEnable]
  -- lines 124-126: if (powerBits & (1 << PM_BOD_OFF)) sleep_bod_disable();
  ++ (if c.powerBits &&& (1 <<< PM_BOD_OFF) ≠ 0 then
        [Event.bodDisable]
      else [])
  -- line 131: sei();  line 136: sleep_cpu();  line 163: sleep_disable();
  -- line 172: PRR = copyPRR;  line 173: SREG = oldSREG;
  ++ [Event.sei, Event.sleepCpu, Event.sleepDisable,
      Event.writePRR (m.PRR % 256), Event.writeSREG m.SREG]

/-- The full event list of AVR_sleep::goToSleep (AVR_sleep.cpp lines
59-181): the pre-hook events followed by the afterWake hook call of lines
178-180 when a hook is attached. -/
def goToSleepTrace (c : AVR_sleep) (m : MachineState) : List Event :=
  preHookTrace c m
  ++ (if c.aw ≠ 0 then [Event.callAfterWake c.aw] else [])

/-- AVR_sleep::goToSleep as a whole: the updated controller (copyPRR is
overwritten with the entry PRR value at line 69), the final register
state, and the event list. -/
def goToSleep (c : AVR_sleep) (m : MachineState) :
    AVR_sleep × MachineState × List Event :=
  ({ c with copyPRR := m.PRR % 256 },
   (goToSleepTrace c m).foldl applyEvent m,
   goToSleepTrace c m)

/-- Membership in a conditionally-empty list segment. -/
theorem mem_ite_nil {α : Type} {a : α} {P : Prop} [Decidable P]
    {l : List α} : a ∈ (if P then l else []) ↔ P ∧ a ∈ l := by
  by_cases h : P <;> simp [h]

/-- countP over a conditionally-empty list segment. -/
theorem countP_ite_nil {α : Type} (p : α → Bool) (P : Prop) [Decidable P]
    (l : List α) :
    (if P then l else []).countP p = if P then l.countP p else 0 := by
  by_cases h : P <;> simp [h]

/-- C1: on a constrained (Arduino) target, setSleepMode commits the
requested mode or its documented fallback (power-down for power-save,
standby for extended-standby) and never any third mode; on an
unconstrained target it always commits the requested mode unchanged. -/
theorem setSleepMode_commits_requested_or_fallback
    (c : AVR_sleep) (m : MachineState) (mode : sleepMode) (bits : Nat) :
    ((setSleepMode true c m mode bits).2.smcrMode = mode
      ∨ (mode = sleepMode.SM_POWER_SAVE
          ∧ (setSleepMode true c m mode bits).2.smcrMode
            = sleepMode.SM_POWER_DOWN)
      ∨ (mode = sleepMode.SM_EXT_STANDBY
          ∧ (setSleepMode true c m mode bits).2.smcrMode
            = sleepMode.SM_STANDBY))
    ∧ (setSleepMode false c m mode bits).2.smcrMode = mode := by
  cases mode <;> simp [setSleepMode]

/-- C7: setSleepMode is idempotent: calling it twice with the same mode
and mask arguments leaves the controller and the committed register state
identical to calling it once. -/
theorem setSleepMode_idempotent
    (arduino : Bool) (c : AVR_sleep) (m : MachineState)
    (mode : sleepMode) (bits : Nat) :
    setSleepMode arduino (setSleepMode arduino c m mode bits).1
      (setSleepMode arduino c m mode bits).2 mode bits
    = setSleepMode arduino c m mode bits := by
  simp [setSleepMode]

/-- C9: attachPreSleep and attachWakeUp each replace their stored hook
unconditionally (last writer wins) and modify only their own hook slot,
leaving the other slot, the stored power-off mask and the saved PRR copy
unchanged. -/
theorem attach_last_writer_wins_and_frame
    (c : AVR_sleep) (f g : Nat) :
    attachPreSleep (attachPreSleep c f) g = attachPreSleep c g
    ∧ attachWakeUp (attachWakeUp c f) g = attachWakeUp c g
    ∧ (attachPreSleep c f).ps = f
    ∧ (attachPreSleep c f).aw = c.aw
    ∧ (attachPreSleep c f).powerBits = c.powerBits
    ∧ (attachPreSleep c f).copyPRR = c.copyPRR
    ∧ (attachWakeUp c f).aw = f
    ∧ (attachWakeUp c f).ps = c.ps
    ∧ (attachWakeUp c f).powerBits = c.powerBits
    ∧ (attachWakeUp c f).copyPRR = c.copyPRR := by
  exact ⟨rfl, rfl, rfl, rfl, rfl, rfl, rfl, rfl, rfl, rfl⟩

/-- C2: for every power-off mask and every initial (8-bit) PRR value,
goToSleep restores PRR to the exact value it held at the start of the
call by the time the post-wake hook-invocation step runs: the event list
is the pre-hook events followed by the hook call (if any), and folding
the pre-hook events over the entry state yields the entry PRR value, so
the PRR value observed by the post-wake hook equals the pre-call
value. -/
theorem goToSleep_restores_PRR_before_wake_hook
    (c : AVR_sleep) (m : MachineState) (hPRR : m.PRR < 256) :
    ((preHookTrace c m).foldl applyEvent m).PRR = m.PRR
    ∧ goToSleepTrace c m
      = preHookTrace c m
        ++ (if c.aw ≠ 0 then [Event.callAfterWake c.aw] else []) := by
  refine ⟨?_, rfl⟩
  have hmod : m.PRR % 256 = m.PRR := Nat.mod_eq_of_lt hPRR
  by_cases h1 : c.powerBits &&& (1 <<< PM_AC_OFF) ≠ 0 <;>
    by_cases h2 : c.powerBits &&& (1 <<< PM_WDT_OFF) ≠ 0 <;>
      by_cases h3 : c.ps ≠ 0 <;>
        by_cases h4 : c.powerBits &&& (1 <<< PM_BOD_OFF) ≠ 0 <;>
          simp [preHookTrace, applyEvent, h1, h2, h3, h4, hmod]

/-- Closed witness for C2 at a concrete controller and machine state. -/
theorem goToSleep_restores_PRR_before_wake_hook_witness :
    let c : AVR_sleep :=
      { ps := 1, aw := 2, copyPRR := 0, powerBits := PM_EVERYTHING_OFF }
    let m : MachineState :=
      { PRR := 0x55, ACSR := 0, MCUSR := 0, SREG := 0x80,
        smcrMode := sleepMode.SM_IDLE, SE := false }
    ((preHookTrace c m).foldl applyEvent m).PRR = m.PRR
    ∧ goToSleepTrace c m
      = preHookTrace c m
        ++ (if c.aw ≠ 0 then [Event.callAfterWake c.aw] else []) :=
  goToSleep_restores_PRR_before_wake_hook _ _ (by decide)

/-- C3: when the brown-out-detector-off flag (mask bit 9) is set, the
goToSleep event list contains the contiguous block sleep-mode-enable,
brown-out-disable write, interrupt re-enable, sleep instruction: the
brown-out-disable write is strictly after sleep-mode-enable (with zero
register writes in between), strictly before the sleep instruction (with
exactly one register write, the sei, in between), and interrupts are
re-enabled only after the brown-out-disable write and before the sleep
instruction.  When the flag is clear, no brown-out-disable write
occurs. -/
theorem bodDisable_adjacent_to_sleep
    (c : AVR_sleep) (m : MachineState) :
    (c.powerBits &&& (1 <<< PM_BOD_OFF) ≠ 0 →
      ∃ pre post,
        goToSleepTrace c m
          = pre ++ [Event.sleepEnable, Event.bodDisable, Event.sei,
              Event.sleepCpu] ++ post
        ∧ Event.sei ∉ pre
        ∧ Event.sei ∉ post
        ∧ Event.bodDisable ∉ pre
        ∧ Event.bodDisable ∉ post)
    ∧ (c.powerBits &&& (1 <<< PM_BOD_OFF) = 0 →
        Event.bodDisable ∉ goToSleepTrace c m) := by
  constructor
  · intro h
    refine ⟨[Event.writePRR (c.powerBits &&& 0x00ff)]
        ++ (if c.powerBits &&& (1 <<< PM_AC_OFF) ≠ 0 then
              [Event.writeACSR (m.ACSR ||| (1 <<< ACD))] else [])
        ++ (if c.powerBits &&& (1 <<< PM_WDT_OFF) ≠ 0 then
              [Event.wdtReset,
               Event.writeMCUSR (m.MCUSR &&& (1 <<< WDRF)),
               Event.wdtDisable] else [])
        ++ (if c.ps ≠ 0 then [Event.callPreSleep c.ps] else [])
        ++ [Event.cli],
      [Event.sleepDisable, Event.writePRR (m.PRR % 256),
       Event.writeSREG m.SREG]
        ++ (if c.aw ≠ 0 then [Event.callAfterWake c.aw] else []),
      ?_, ?_, ?_, ?_, ?_⟩
    · simp [goToSleepTrace, preHookTrace, h]
    · simp [mem_ite_nil]
    · simp [mem_ite_nil]
    · simp [mem_ite_nil]
    · simp [mem_ite_nil]
  · intro h
    simp [goToSleepTrace, preHookTrace, h, mem_ite_nil]

/-- Closed witness for C3 at a concrete controller with the BOD flag
set. -/
theorem bodDisable_adjacent_to_sleep_witness :
    let c : AVR_sleep :=
      { ps := 0, aw := 0, copyPRR := 0, powerBits := 1 <<< PM_BOD_OFF }
    let m : MachineState :=
      { PRR := 0, ACSR := 0, MCUSR := 0, SREG := 0x80,
        smcrMode := sleepMode.SM_IDLE, SE := false }
    ∃ pre post,
      goToSleepTrace c m
        = pre ++ [Event.sleepEnable, Event.bodDisable, Event.sei,
            Event.sleepCpu] ++ post
      ∧ Event.sei ∉ pre
      ∧ Event.sei ∉ post
      ∧ Event.bodDisable ∉ pre
      ∧ Event.bodDisable ∉ post :=
  (bodDisable_adjacent_to_sleep _ _).1 (by decide)

/-- C5: when the watchdog-timer flag (mask bit 10) is set, the watchdog
acknowledge/reset sequence (wdt_reset followed by the MCUSR status-flag
write) occurs strictly before the watchdog disable, as one contiguous
block with no other watchdog operation anywhere else in the event list;
when the flag is clear, no watchdog operation occurs at all. -/
theorem wdt_ack_before_disable
    (c : AVR_sleep) (m : MachineState) :
    (c.powerBits &&& (1 <<< PM_WDT_OFF) ≠ 0 →
      ∃ pre post,
        goToSleepTrace c m
          = pre ++ [Event.wdtReset,
              Event.writeMCUSR (m.MCUSR &&& (1 <<< WDRF)),
              Event.wdtDisable] ++ post
        ∧ Event.wdtReset ∉ pre ∧ Event.wdtReset ∉ post
        ∧ Event.wdtDisable ∉ pre ∧ Event.wdtDisable ∉ post
        ∧ (∀ v, Event.writeMCUSR v ∉ pre)
        ∧ (∀ v, Event.writeMCUSR v ∉ post))
    ∧ (c.powerBits &&& (1 <<< PM_WDT_OFF) = 0 →
        Event.wdtReset ∉ goToSleepTrace c m
        ∧ Event.wdtDisable ∉ goToSleepTrace c m
        ∧ ∀ v, Event.writeMCUSR v ∉ goToSleepTrace c m) := by
  constructor
  · intro h
    refine ⟨[Event.writePRR (c.powerBits &&& 0x00ff)]
        ++ (if c.powerBits &&& (1 <<< PM_AC_OFF) ≠ 0 then
              [Event.writeACSR (m.ACSR ||| (1 <<< ACD))] else []),
      (if c.ps ≠ 0 then [Event.callPreSleep c.ps] else [])
        ++ [Event.cli, Event.sleepEnable]
        ++ (if c.powerBits &&& (1 <<< PM_BOD_OFF) ≠ 0 then
              [Event.bodDisable] else [])
        ++ [Event.sei, Event.sleepCpu, Event.sleepDisable,
            Event.writePRR (m.PRR % 256), Event.writeSREG m.SREG]
        ++ (if c.aw ≠ 0 then [Event.callAfterWake c.aw] else []),
      ?_, ?_, ?_, ?_, ?_, ?_, ?_⟩
    · simp [goToSleepTrace, preHookTrace, h]
    · simp [mem_ite_nil]
    · simp [mem_ite_nil]
    · simp [mem_ite_nil]
    · simp [mem_ite_nil]
    · simp [mem_ite_nil]
    · simp [mem_ite_nil]
  · intro h
    simp [goToSleepTrace, preHookTrace, h, mem_ite_nil]

/-- Closed witness for C5 at a concrete controller with the WDT flag
set. -/
theorem wdt_ack_before_disable_witness :
    let c : AVR_sleep :=
      { ps := 0, aw := 0, copyPRR := 0, powerBits := 1 <<< PM_WDT_OFF }
    let m : MachineState :=
      { PRR := 0, ACSR := 0, MCUSR := 0x0b, SREG := 0x80,
        smcrMode := sleepMode.SM_IDLE, SE := false }
    ∃ pre post,
      goToSleepTrace c m
        = pre ++ [Event.wdtReset,
            Event.writeMCUSR (m.MCUSR &&& (1 <<< WDRF)),
            Event.wdtDisable] ++ post
      ∧ Event.wdtReset ∉ pre ∧ Event.wdtReset ∉ post
      ∧ Event.wdtDisable ∉ pre ∧ Event.wdtDisable ∉ post
      ∧ (∀ v, Event.writeMCUSR v ∉ pre)
      ∧ (∀ v, Event.writeMCUSR v ∉ post) :=
  (wdt_ack_before_disable _ _).1 (by decide)

/-- Recogniser for pre-sleep hook invocation events. -/
def isPreSleepCall : Event → Bool
  | Event.callPreSleep _ => true
  | _ => false

/-- Recogniser for post-wake hook invocation events. -/
def isAfterWakeCall : Event → Bool
  | Event.callAfterWake _ => true
  | _ => false

/-- C6: in every goToSleep call, a registered pre-sleep hook is invoked
exactly once, strictly before interrupts are disabled (the call is
immediately followed by the cli, and no cli precedes it); a registered
post-wake hook is invoked exactly once, strictly after the interrupt
state is restored (the SREG restore immediately precedes it, and nothing
follows); an unregistered hook slot yields zero invocations. -/
theorem hooks_invoked_exactly_once
    (c : AVR_sleep) (m : MachineState) :
    (c.ps ≠ 0 →
      (goToSleepTrace c m).countP isPreSleepCall = 1
      ∧ ∃ pre post,
          goToSleepTrace c m
            = pre ++ [Event.callPreSleep c.ps, Event.cli] ++ post
          ∧ Event.cli ∉ pre)
    ∧ (c.ps = 0 → (goToSleepTrace c m).countP isPreSleepCall = 0)
    ∧ (c.aw ≠ 0 →
      (goToSleepTrace c m).countP isAfterWakeCall = 1
      ∧ ∃ pre,
          goToSleepTrace c m
            = pre ++ [Event.writeSREG m.SREG, Event.callAfterWake c.aw])
    ∧ (c.aw = 0 → (goToSleepTrace c m).countP isAfterWakeCall = 0) := by
  refine ⟨fun hps => ⟨?_, ?_⟩, fun hps => ?_, fun haw => ⟨?_, ?_⟩,
    fun haw => ?_⟩
  · by_cases h1 : c.powerBits &&& (1 <<< PM_AC_OFF) ≠ 0 <;>
      by_cases h2 : c.powerBits &&& (1 <<< PM_WDT_OFF) ≠ 0 <;>
        by_cases h3 : c.powerBits &&& (1 <<< PM_BOD_OFF) ≠ 0 <;>
          by_cases h4 : c.aw ≠ 0 <;>
            simp [goToSleepTrace, preHookTrace, hps, h1, h2, h3, h4,
              isPreSleepCall]
  · refine ⟨[Event.writePRR (c.powerBits &&& 0x00ff)]
        ++ (if c.powerBits &&& (1 <<< PM_AC_OFF) ≠ 0 then
              [Event.writeACSR (m.ACSR ||| (1 <<< ACD))] else [])
        ++ (if c.powerBits &&& (1 <<< PM_WDT_OFF) ≠ 0 then
              [Event.wdtReset,
               Event.writeMCUSR (m.MCUSR &&& (1 <<< WDRF)),
               Event.wdtDisable] else []),
      [Event.sleepEnable]
        ++ (if c.powerBits &&& (1 <<< PM_BOD_OFF) ≠ 0 then
              [Event.bodDisable] else [])
        ++ [Event.sei, Event.sleepCpu, Event.sleepDisable,
            Event.writePRR (m.PRR % 256), Event.writeSREG m.SREG]
        ++ (if c.aw ≠ 0 then [Event.callAfterWake c.aw] else []),
      ?_, ?_⟩
    · simp [goToSleepTrace, preHookTrace, hps]
    · simp [mem_ite_nil]
  · by_cases h1 : c.powerBits &&& (1 <<< PM_AC_OFF) ≠ 0 <;>
      by_cases h2 : c.powerBits &&& (1 <<< PM_WDT_OFF) ≠ 0 <;>
        by_cases h3 : c.powerBits &&& (1 <<< PM_BOD_OFF) ≠ 0 <;>
          by_cases h4 : c.aw ≠ 0 <;>
            simp [goToSleepTrace, preHookTrace, hps, h1, h2, h3, h4,
              isPreSleepCall]
  · by_cases h1 : c.powerBits &&& (1 <<< PM_AC_OFF) ≠ 0 <;>
      by_cases h2 : c.powerBits &&& (1 <<< PM_WDT_OFF) ≠ 0 <;>
        by_cases h3 : c.powerBits &&& (1 <<< PM_BOD_OFF) ≠ 0 <;>
          by_cases h4 : c.ps ≠ 0 <;>
            simp [goToSleepTrace, preHookTrace, haw, h1, h2, h3, h4,
              isAfterWakeCall]
  · refine ⟨[Event.writePRR (c.powerBits &&& 0x00ff)]
        ++ (if c.powerBits &&& (1 <<< PM_AC_OFF) ≠ 0 then
              [Event.writeACSR (m.ACSR ||| (1 <<< ACD))] else [])
        ++ (if c.powerBits &&& (1 <<< PM_WDT_OFF) ≠ 0 then
              [Event.wdtReset,
               Event.writeMCUSR (m.MCUSR &&& (1 <<< WDRF)),
               Event.wdtDisable] else [])
        ++ (if c.ps ≠ 0 then [Event.callPreSleep c.ps] else [])
        ++ [Event.cli, Event.sleepEnable]
        ++ (if c.powerBits &&& (1 <<< PM_BOD_OFF) ≠ 0 then
              [Event.bodDisable] else [])
        ++ [Event.sei, Event.sleepCpu, Event.sleepDisable,
            Event.writePRR (m.PRR % 256)], ?_⟩
    simp [goToSleepTrace, preHookTrace, haw]
  · by_cases h1 : c.powerBits &&& (1 <<< PM_AC_OFF) ≠ 0 <;>
      by_cases h2 : c.powerBits &&& (1 <<< PM_WDT_OFF) ≠ 0 <;>
        by_cases h3 : c.powerBits &&& (1 <<< PM_BOD_OFF) ≠ 0 <;>
          by_cases h4 : c.ps ≠ 0 <;>
            simp [goToSleepTrace, preHookTrace, haw, h1, h2, h3, h4,
              isAfterWakeCall]

/-- Closed witness for C6 at a concrete controller with both hooks
registered. -/
theorem hooks_invoked_exactly_once_witness :
    let c : AVR_sleep :=
      { ps := 3, aw := 4, copyPRR := 0, powerBits := 0 }
    let m : MachineState :=
      { PRR := 0, ACSR := 0, MCUSR := 0, SREG := 0x80,
        smcrMode := sleepMode.SM_IDLE, SE := false }
    (goToSleepTrace c m).countP isPreSleepCall = 1
    ∧ ∃ pre post,
        goToSleepTrace c m
          = pre ++ [Event.callPreSleep c.ps, Event.cli] ++ post
        ∧ Event.cli ∉ pre :=
  (hooks_invoked_exactly_once _ _).1 (by decide)

/-- C8: the power-reduction-register write performed at the start of
goToSleep is the very first event and writes exactly the lower 8 bits of
the stored mask (powerBits AND 0x00ff, i.e. powerBits mod 256); after
the write the register holds that value, so the synthetic upper-byte
flags never affect it. -/
theorem first_PRR_write_is_mask_low_byte
    (c : AVR_sleep) (m : MachineState) :
    (goToSleepTrace c m).head?
      = some (Event.writePRR (c.powerBits &&& 0x00ff))
    ∧ c.powerBits &&& 0x00ff = c.powerBits % 256
    ∧ (applyEvent m (Event.writePRR (c.powerBits &&& 0x00ff))).PRR
      = c.powerBits % 256 := by
  have hand : c.powerBits &&& 0x00ff = c.powerBits % 256 := by
    have h := Nat.and_pow_two_sub_one_eq_mod c.powerBits 8
    norm_num at h
    exact h
  refine ⟨?_, hand, ?_⟩
  · simp [goToSleepTrace, preHookTrace]
  · simp only [applyEvent, hand]
    omega

/-- C10: PM_AC_OFF, PM_BOD_OFF and PM_WDT_OFF are the bit indices 8, 9
and 10 (not upper-byte masks), and PM_AC_OFF is numerically equal to
PM_TIMER1_OFF; a power-off mask equal to the bare value PM_AC_OFF makes
goToSleep gate the Timer-1 clock in the PRR write and run none of the
analog-comparator, brown-out or watchdog sequences; and those three
sequences run if and only if mask bits 0x100, 0x200 and 0x400
respectively are set. -/
theorem synthetic_flags_are_bit_indices
    (c : AVR_sleep) (m : MachineState) :
    PM_AC_OFF = 8 ∧ PM_BOD_OFF = 9 ∧ PM_WDT_OFF = 10
    ∧ PM_AC_OFF = PM_TIMER1_OFF
    ∧ goToSleepTrace
        { ps := 0, aw := 0, copyPRR := 0, powerBits := PM_AC_OFF } m
      = [Event.writePRR PM_TIMER1_OFF, Event.cli, Event.sleepEnable,
         Event.sei, Event.sleepCpu, Event.sleepDisable,
         Event.writePRR (m.PRR % 256), Event.writeSREG m.SREG]
    ∧ ((∃ v, Event.writeACSR v ∈ goToSleepTrace c m)
        ↔ c.powerBits &&& 0x100 ≠ 0)
    ∧ (Event.bodDisable ∈ goToSleepTrace c m
        ↔ c.powerBits &&& 0x200 ≠ 0)
    ∧ (Event.wdtDisable ∈ goToSleepTrace c m
        ↔ c.powerBits &&& 0x400 ≠ 0) := by
  refine ⟨rfl, rfl, rfl, by decide, ?_, ?_, ?_, ?_⟩
  · have e1 : (8 : Nat) &&& 255 = 8 := by decide
    have e2 : (8 : Nat) &&& 256 = 0 := by decide
    have e3 : (8 : Nat) &&& 1024 = 0 := by decide
    have e4 : (8 : Nat) &&& 512 = 0 := by decide
    simp [goToSleepTrace, preHookTrace, PM_AC_OFF, PM_BOD_OFF,
      PM_WDT_OFF, PM_TIMER1_OFF, PRTIM1, e1, e2, e3, e4]
  · simp [goToSleepTrace, preHookTrace, mem_ite_nil, PM_AC_OFF]
  · simp [goToSleepTrace, preHookTrace, mem_ite_nil, PM_BOD_OFF]
  · simp [goToSleepTrace, preHookTrace, mem_ite_nil, PM_WDT_OFF]

/-- C4: evaluation of the watchdog status-flag step at a concrete input.
The source line MCUSR &= (1 << WDRF) writes MCUSR AND 0x08: starting
from MCUSR = 0x0b the value written is 0x08, in which WDRF (bit 3) is
still set and bits 0 and 1, set on entry, have been cleared — the
opposite of clearing WDRF while leaving the other bits unchanged. -/
theorem wdt_status_write_keeps_WDRF_clears_rest :
    Event.writeMCUSR 0x08
      ∈ goToSleepTrace
          { ps := 0, aw := 0, copyPRR := 0,
            powerBits := 1 <<< PM_WDT_OFF }
          { PRR := 0, ACSR := 0, MCUSR := 0x0b, SREG := 0x80,
            smcrMode := sleepMode.SM_IDLE, SE := false }
    ∧ Nat.testBit 0x08 WDRF = true
    ∧ Nat.testBit 0x0b 0 = true
    ∧ Nat.testBit 0x08 0 = false := by
  refine ⟨?_, by decide, by decide, by decide⟩
  have e1 : (11 : Nat) &&& 8 = 8 := by decide
  simp [goToSleepTrace, preHookTrace, mem_ite_nil, PM_WDT_OFF, WDRF, e1]

end AVRsleep
